import Mathlib

/-!
Verification of the posts REST API backend.

This file embeds, in Lean 4, the validation utilities, the response
envelope helpers, the error middleware, and the five posts route
handlers of the repository, and proves the specified properties about
them.

Modelling conventions:
- JavaScript payload/query values are modelled by `JInput` (a string, an
  integral number, or null/undefined/absent).  JavaScript truthiness and
  the builtin `parseInt` are modelled explicitly (`truthy`, `parseIntJ`).
- The external managed database is modelled as a Lean list of rows.  The
  semantics of the query builder calls used by the handlers (ilike
  filtering, order by id descending, range/offset, exact count,
  `.single()`, `.eq`) is modelled from the documented behaviour the spec
  describes: the builder sends one declarative query, so ordering is
  applied before the range window regardless of call-chaining order.
- Database infrastructure failures are injected through handler "core"
  functions taking the query outcome as an argument, mirroring the
  `if (error) ...` branches of the handler source.
-/

/-- The characters `String.prototype.trim` / `parseInt` skip, for the
whitespace characters that can actually occur in HTTP payloads. -/
def isJsWS (c : Char) : Bool :=
  c = ' ' || c = '\t' || c = '\n' || c = '\r' || c = '\x0b' || c = '\x0c' || c = ' '

/-- Trim of a character list: drop whitespace from the front, then from
the back. -/
def trimL (cs : List Char) : List Char :=
  ((cs.dropWhile isJsWS).reverse.dropWhile isJsWS).reverse

/-- JavaScript `String.prototype.trim`: strip leading and trailing
whitespace. -/
def jsTrim (s : String) : String :=
  ⟨trimL s.data⟩

/-- Value of a decimal digit character, `none` otherwise. -/
def decVal (c : Char) : Option Nat :=
  if '0' ≤ c ∧ c ≤ '9' then some (c.toNat - '0'.toNat) else none

/-- Value of a hexadecimal digit character, `none` otherwise. -/
def hexVal (c : Char) : Option Nat :=
  if '0' ≤ c ∧ c ≤ '9' then some (c.toNat - '0'.toNat)
  else if 'a' ≤ c ∧ c ≤ 'f' then some (c.toNat - 'a'.toNat + 10)
  else if 'A' ≤ c ∧ c ≤ 'F' then some (c.toNat - 'A'.toNat + 10)
  else none

/-- Accumulate the value of the longest digit prefix. -/
def parseDigitsAux (f : Char → Option Nat) (base : Nat) : Nat → List Char → Nat
  | acc, [] => acc
  | acc, c :: cs =>
    match f c with
    | some d => parseDigitsAux f base (acc * base + d) cs
    | none => acc

/-- Value of the longest non-empty digit prefix; `none` when the first
character is not a digit (JavaScript NaN). -/
def parseDigits (f : Char → Option Nat) (base : Nat) : List Char → Option Nat
  | [] => none
  | c :: cs =>
    match f c with
    | some d => some (parseDigitsAux f base d cs)
    | none => none

/-- JavaScript `parseInt` on a string (default radix): skip whitespace,
optional sign, `0x`/`0X` selects hexadecimal, then the longest digit
prefix; `none` models NaN. -/
def parseIntStr (s : String) : Option Int :=
  let cs := s.data.dropWhile isJsWS
  let sgn : Int := match cs with
    | '-' :: _ => -1
    | _ => 1
  let cs1 : List Char := match cs with
    | '-' :: r => r
    | '+' :: r => r
    | _ => cs
  match cs1 with
  | '0' :: 'x' :: r => (parseDigits hexVal 16 r).map (fun n => sgn * (n : Int))
  | '0' :: 'X' :: r => (parseDigits hexVal 16 r).map (fun n => sgn * (n : Int))
  | _ => (parseDigits decVal 10 cs1).map (fun n => sgn * (n : Int))

/-- A JavaScript value as it reaches the validators from a request:
a string, an integral number, or null/undefined/absent. -/
inductive JInput where
  | jstr (s : String)
  | jnum (n : Int)
  | jnull
deriving DecidableEq, Repr

/-- JavaScript truthiness on `JInput`. -/
def truthy : JInput → Bool
  | .jstr s => s ≠ ""
  | .jnum n => n ≠ 0
  | .jnull => false

/-- JavaScript `parseInt` on a `JInput`: strings are parsed,
integral numbers print-and-reparse to themselves, null/undefined
stringify to non-numeric text and give NaN. -/
def parseIntJ : JInput → Option Int
  | .jstr s => parseIntStr s
  | .jnum n => some n
  | .jnull => none

/-- `validateId` from the validation utilities:
`id && !isNaN(parseInt(id)) && parseInt(id) > 0`, read for truthiness. -/
def validateId (id : JInput) : Bool :=
  truthy id && !(parseIntJ id).isNone && ((parseIntJ id).getD 0 > 0)

/-- JavaScript `x || d` where `x` is a number-or-NaN: NaN and 0 are
falsy and give the default. -/
def jsOr (v : Option Int) (d : Int) : Int :=
  match v with
  | none => d
  | some n => if n = 0 then d else n

/-- `validatePagination` from the validation utilities:
`pageNum = Math.max(1, parseInt(page) || 1)`,
`limitNum = Math.min(100, Math.max(1, parseInt(limit) || 10))`. -/
def validatePagination (page limit : JInput) : Int × Int :=
  let pageNum := max 1 (jsOr (parseIntJ page) 1)
  let limitNum := min 100 (max 1 (jsOr (parseIntJ limit) 10))
  (pageNum, limitNum)

/-- Result of `validatePostData`. -/
structure PDResult where
  isValid : Bool
  errors : List String
deriving DecidableEq, Repr

/-- Title branch of `validatePostData`:
`!title || typeof title !== 'string' || !title.trim()` then the length
check. -/
def titleErrors (title : JInput) : List String :=
  match title with
  | .jstr s =>
    if s = "" ∨ jsTrim s = "" then ["Title is required and must be a non-empty string"]
    else if s.length > 255 then ["Title must be 255 characters or less"]
    else []
  | _ => ["Title is required and must be a non-empty string"]

/-- Body branch of `validatePostData`. -/
def bodyErrors (body : JInput) : List String :=
  match body with
  | .jstr s =>
    if s = "" ∨ jsTrim s = "" then ["Body is required and must be a non-empty string"]
    else if s.length > 10000 then ["Body must be 10000 characters or less"]
    else []
  | _ => ["Body is required and must be a non-empty string"]

/-- `validatePostData` from the validation utilities: the two fields are
checked independently and the error messages concatenated; `isValid` iff
no error. -/
def validatePostData (title body : JInput) : PDResult :=
  let errors := titleErrors title ++ bodyErrors body
  ⟨errors.isEmpty, errors⟩

/-- `sanitizeString` from the validation utilities: trim strings, map
every non-string to the empty string. -/
def sanitizeString : JInput → String
  | .jstr s => jsTrim s
  | _ => ""

/-- A persisted row of the `posts` table, as selected by the handlers
(`id, title, body, user_id`). -/
structure Post where
  id : Int
  title : String
  body : String
  user_id : JInput
deriving DecidableEq, Repr

/-- ASCII lowercase of a character list (case folding used by `ilike`). -/
def toLowerL (cs : List Char) : List Char := cs.map Char.toLower

/-- `needle` occurs as a contiguous sublist of `hay`. -/
def containsSub (needle hay : List Char) : Bool :=
  hay.tails.any (fun t => needle.isPrefixOf t)

/-- Case-insensitive substring containment: the semantics of the
`ilike '%search%'` filter the list handler builds. -/
def containsCI (hay needle : String) : Bool :=
  containsSub (toLowerL needle.data) (toLowerL hay.data)

/-- The search predicate of the list handler:
`title.ilike.%search%,body.ilike.%search%` combined with `or`. -/
def matchesSearch (search : String) (p : Post) : Bool :=
  containsCI p.title search || containsCI p.body search

/-- Row order requested by the list handler: id descending. -/
def idDesc (a b : Post) : Prop := b.id ≤ a.id

instance : DecidableRel idDesc := fun a b => inferInstanceAs (Decidable (b.id ≤ a.id))

instance : IsTotal Post idDesc := ⟨fun a b => le_total b.id a.id⟩

instance : IsTrans Post idDesc := ⟨fun _ _ _ hab hbc => le_trans hbc hab⟩

/-- `order('id', ascending: false)` applied to the result set. -/
def sortByIdDesc (l : List Post) : List Post := l.insertionSort idDesc

/-- The search filter step: applied only when the trimmed search term is
non-empty (`if (search.trim())`), and then matched against the raw
(untrimmed) search term. -/
def searchFilter (search : String) (db : List Post) : List Post :=
  if jsTrim search ≠ "" then db.filter (fun p => matchesSearch search p) else db

/-- `Math.ceil(count / limitNum)` on non-negative integers. -/
def ceilDiv (a b : Nat) : Nat := (a + b - 1) / b

/-- The pagination metadata object of the list response. -/
structure Pagination where
  currentPage : Int
  totalPages : Nat
  totalItems : Nat
  itemsPerPage : Int
  hasNextPage : Bool
  hasPrevPage : Bool
deriving DecidableEq, Repr

/-- The `data` payload of a successful list response. -/
structure ListOut where
  posts : List Post
  pagination : Pagination
deriving DecidableEq, Repr

/-- The possible `data` payloads of the posts handlers. -/
inductive RData where
  | post (p : Post)
  | list (o : ListOut)
  | msg (s : String)
deriving DecidableEq, Repr

/-- An HTTP response with its envelope, as produced by
`res.status(...).json(\x7bsuccess, data, error\x7d)`. -/
structure Response where
  status : Nat
  success : Bool
  data : Option RData
  error : Option String
deriving DecidableEq, Repr

/-- An error object returned by the database client (`code`,
`message`). -/
structure DbError where
  code : String
  message : String
deriving DecidableEq, Repr

/-- The list query pipeline of `GET /posts`: filter, exact count of all
matching rows, order by id descending, then the range window
`[offset, offset + limitNum - 1]`, plus the pagination arithmetic of the
handler. -/
def listResult (db : List Post) (page limit : JInput) (search : String) : ListOut :=
  let pr := validatePagination page limit
  let pageNum := pr.1
  let limitNum := pr.2
  let offset := ((pageNum - 1) * limitNum).toNat
  let matched := searchFilter search db
  let count := matched.length
  let rows := ((sortByIdDesc matched).drop offset).take limitNum.toNat
  let totalPages := ceilDiv count limitNum.toNat
  ⟨rows, ⟨pageNum, totalPages, count, limitNum,
    decide (pageNum < (totalPages : Int)), decide (1 < pageNum)⟩⟩

/-- The response branch of `GET /posts` after the query: a database
error gives 400 with the underlying message, otherwise 200 with posts
and pagination. -/
def listPostsCore (q : Except DbError ListOut) : Response :=
  match q with
  | .error e => ⟨400, false, none, some e.message⟩
  | .ok o => ⟨200, true, some (.list o), none⟩

/-- `GET /posts` over the concrete database model (no infrastructure
failure). -/
def listPosts (db : List Post) (page limit : JInput) (search : String) : Response :=
  listPostsCore (.ok (listResult db page limit search))

/-- Postgres cast of the raw id path string in `.eq('id', id)`: strict
integer syntax, otherwise an `invalid input syntax` error (code 22P02,
not PGRST116). -/
def castInt (s : String) : Except DbError Int :=
  let cs := (jsTrim s).data
  let bad : Except DbError Int :=
    .error ⟨"22P02", "invalid input syntax for type integer: " ++ s⟩
  match cs with
  | '-' :: r =>
    if r ≠ [] ∧ r.all (fun c => (decVal c).isSome) then
      .ok (-(parseDigitsAux decVal 10 0 r : Int))
    else bad
  | '+' :: r =>
    if r ≠ [] ∧ r.all (fun c => (decVal c).isSome) then
      .ok (parseDigitsAux decVal 10 0 r : Int)
    else bad
  | r =>
    if r ≠ [] ∧ r.all (fun c => (decVal c).isSome) then
      .ok (parseDigitsAux decVal 10 0 r : Int)
    else bad

/-- Rows matching `.eq('id', n)`. -/
def rowsById (db : List Post) (n : Int) : List Post :=
  db.filter (fun p => p.id = n)

/-- `.single()`: exactly one row, else error PGRST116
("JSON object requested, multiple (or no) rows returned"). -/
def singleResult (rows : List Post) : Except DbError Post :=
  match rows with
  | [p] => .ok p
  | _ => .error ⟨"PGRST116", "JSON object requested, multiple (or no) rows returned"⟩

/-- The shared error/success branch of `GET /posts/:id` and
`PUT /posts/:id` after the single-row query: PGRST116 gives 404
"Post not found", any other database error 400 with its message,
success 200 with the post. -/
def handleSingle (r : Except DbError Post) : Response :=
  match r with
  | .error e =>
    if e.code = "PGRST116" then ⟨404, false, none, some "Post not found"⟩
    else ⟨400, false, none, some e.message⟩
  | .ok p => ⟨200, true, some (.post p), none⟩

/-- The single-row query of `GET /posts/:id` over the concrete database
model. -/
def getPostQuery (db : List Post) (id : String) : Except DbError Post :=
  match castInt id with
  | .error e => .error e
  | .ok n => singleResult (rowsById db n)

/-- `GET /posts/:id`: reject invalid ids with 400, then the single-row
query and its branch. -/
def getPost (db : List Post) (id : String) : Response :=
  if !(validateId (.jstr id)) then ⟨400, false, none, some "Invalid post ID"⟩
  else handleSingle (getPostQuery db id)

/-- Server-assigned primary key for an insert. -/
def nextId (db : List Post) : Int := db.foldr (fun p m => max p.id m) 0 + 1

/-- `POST /posts`: reject falsy `user_id`, run `validatePostData`
(errors joined by ", "), then insert the sanitized title/body and return
the created row with 201. -/
def createPost (db : List Post) (title body user_id : JInput) : Response × List Post :=
  if !(truthy user_id) then (⟨400, false, none, some "user_id is required"⟩, db)
  else if !(validatePostData title body).isValid then
    (⟨400, false, none, some (String.intercalate ", " (validatePostData title body).errors)⟩, db)
  else
    let p : Post := ⟨nextId db, sanitizeString title, sanitizeString body, user_id⟩
    (⟨201, true, some (.post p), none⟩, db ++ [p])

/-- The database-side effect of `update(\x7btitle, body\x7d).eq('id', n)`: every
row with the given id gets the new title and body, all other rows and
all other columns are untouched. -/
def applyUpdate (n : Int) (t b : String) (db : List Post) : List Post :=
  db.map (fun p => if p.id = n then { p with title := t, body := b } else p)

/-- `PUT /posts/:id`: reject invalid ids with 400, run
`validatePostData`, then update the sanitized title/body on the matching
row and return it through the same single-row branch as get-by-id.
Returns the response together with the new database state. -/
def updatePost (db : List Post) (id : String) (title body : JInput) : Response × List Post :=
  if !(validateId (.jstr id)) then (⟨400, false, none, some "Invalid post ID"⟩, db)
  else if !(validatePostData title body).isValid then
    (⟨400, false, none, some (String.intercalate ", " (validatePostData title body).errors)⟩, db)
  else
    match castInt id with
    | .error e => (handleSingle (.error e), db)
    | .ok n =>
      let db2 := applyUpdate n (sanitizeString title) (sanitizeString body) db
      (handleSingle (singleResult (rowsById db2 n)), db2)

/-- `DELETE /posts/:id`: reject invalid ids with 400, issue the
unconditional delete, and answer 200 with a success message whether or
not a row existed. -/
def deletePost (db : List Post) (id : String) : Response × List Post :=
  if !(validateId (.jstr id)) then (⟨400, false, none, some "Invalid post ID"⟩, db)
  else
    match castInt id with
    | .error e => (⟨400, false, none, some e.message⟩, db)
    | .ok n =>
      (⟨200, true, some (.msg "Post deleted successfully"), none⟩,
        db.filter (fun p => p.id ≠ n))

/-- The `try/catch` boundary wrapped around every handler body: an
exception (modelled by `some msg`) is answered with 500 and the fixed
generic message, never with the exception text. -/
def catchAll (exc : Option String) (body : Response) : Response :=
  match exc with
  | some _ => ⟨500, false, none, some "Internal server error"⟩
  | none => body

/-- `GET /posts` with its exception boundary. -/
def listRoute (db : List Post) (page limit : JInput) (search : String)
    (exc : Option String) : Response :=
  catchAll exc (listPosts db page limit search)

/-- `GET /posts/:id` with its exception boundary. -/
def getRoute (db : List Post) (id : String) (exc : Option String) : Response :=
  catchAll exc (getPost db id)

/-- `POST /posts` with its exception boundary. -/
def createRoute (db : List Post) (title body user_id : JInput)
    (exc : Option String) : Response :=
  catchAll exc (createPost db title body user_id).1

/-- `PUT /posts/:id` with its exception boundary. -/
def updateRoute (db : List Post) (id : String) (title body : JInput)
    (exc : Option String) : Response :=
  catchAll exc (updatePost db id title body).1

/-- `DELETE /posts/:id` with its exception boundary. -/
def deleteRoute (db : List Post) (id : String) (exc : Option String) : Response :=
  catchAll exc (deletePost db id).1

/-- The global error middleware: constant 500 envelope. -/
def errorHandler : Response := ⟨500, false, none, some "Internal server error"⟩

/-- The 404 middleware for unmatched routes. -/
def notFoundHandler (method path : String) : Response :=
  ⟨404, false, none, some ("Route " ++ method ++ " " ++ path ++ " not found")⟩

/-- The bare `\x7bsuccess, data, error\x7d` envelope of the response helper
module (no status code). -/
structure Envelope (α : Type) where
  success : Bool
  data : Option α
  error : Option String
deriving Repr

/-- `createResponse` from the response helpers. -/
def createResponse {α : Type} (success : Bool) (data : Option α)
    (error : Option String) : Envelope α :=
  ⟨success, data, error⟩

/-- `createSuccessResponse`: success envelope; a non-null message is
spread into the data object (modelled as pairing). -/
def createSuccessResponse {α : Type} (data : α) (message : Option String) :
    Envelope (α × Option String) :=
  createResponse true (some (data, message)) none

/-- `createErrorResponse`: failure envelope with null data. -/
def createErrorResponse {α : Type} (error : String) : Envelope α :=
  createResponse false none (some error)

/-- Complementarity invariant of the envelope: success implies null
error, failure implies null data. -/
def envelopeOK (r : Response) : Bool :=
  (!r.success || r.error.isNone) && (r.success || r.data.isNone)

/-- Complementarity invariant for bare envelopes. -/
def envelopeOKe {α : Type} (e : Envelope α) : Bool :=
  (!e.success || e.error.isNone) && (e.success || e.data.isNone)

example : validateId (.jstr "123") = true := by decide
example : validateId (.jstr "0") = false := by decide
example : validateId (.jstr "abc") = false := by decide
example : validateId .jnull = false := by decide
example : validateId (.jstr "-7") = false := by decide
example : validatePagination (.jstr "-1") (.jstr "200") = (1, 100) := by decide
example : validatePagination (.jstr "abc") (.jstr "xyz") = (1, 10) := by decide
example : validatePagination (.jstr "2") (.jstr "50") = (2, 50) := by decide
example : sanitizeString (.jstr "  hello world  ") = "hello world" := by decide
example : sanitizeString (.jnum 123) = "" := by decide

/-! ### Helper lemmas -/

lemma dropWhile_head_false (p : Char → Bool) :
    ∀ (l : List Char) (c : Char) (t : List Char), l.dropWhile p = c :: t → p c = false
  | [], c, t, h => by simp at h
  | a :: l, c, t, h => by
    by_cases hpa : p a = true
    · rw [List.dropWhile_cons, if_pos hpa] at h
      exact dropWhile_head_false p l c t h
    · rw [List.dropWhile_cons, if_neg hpa] at h
      injection h with h1 _
      subst h1
      cases hb : p a
      · rfl
      · exact absurd hb hpa

lemma mem_dropWhile_of_not (p : Char → Bool) :
    ∀ (l : List Char) (c : Char), c ∈ l → p c = false → c ∈ l.dropWhile p
  | [], c, hc, _ => absurd hc (List.not_mem_nil c)
  | a :: l, c, hc, hpc => by
    by_cases hpa : p a = true
    · rw [List.dropWhile_cons, if_pos hpa]
      rcases List.mem_cons.mp hc with rfl | hm
      · rw [hpc] at hpa
        cases hpa
      · exact mem_dropWhile_of_not p l c hm hpc
    · rw [List.dropWhile_cons, if_neg hpa]
      exact hc

lemma mem_of_mem_dropWhile (p : Char → Bool) :
    ∀ (l : List Char) (c : Char), c ∈ l.dropWhile p → c ∈ l
  | [], c, hc => hc
  | a :: l, c, hc => by
    by_cases hpa : p a = true
    · rw [List.dropWhile_cons, if_pos hpa] at hc
      exact List.mem_cons_of_mem a (mem_of_mem_dropWhile p l c hc)
    · rw [List.dropWhile_cons, if_neg hpa] at hc
      exact hc

lemma exists_nonws_of_trimL_ne (cs : List Char) (h : trimL cs ≠ []) :
    ∃ c ∈ trimL cs, isJsWS c = false := by
  cases hv2 : (cs.dropWhile isJsWS).reverse.dropWhile isJsWS with
  | nil =>
    exact absurd (show trimL cs = [] by unfold trimL; rw [hv2]; rfl) h
  | cons c t =>
    refine ⟨c, ?_, dropWhile_head_false isJsWS _ c t hv2⟩
    unfold trimL
    rw [hv2, List.mem_reverse]
    exact List.mem_cons_self c t

lemma trimL_ne_of_mem (cs : List Char) (c : Char) (hc : c ∈ cs) (hw : isJsWS c = false) :
    trimL cs ≠ [] := by
  have h1 : c ∈ cs.dropWhile isJsWS := mem_dropWhile_of_not isJsWS cs c hc hw
  have h2 : c ∈ (cs.dropWhile isJsWS).reverse := List.mem_reverse.mpr h1
  have h3 : c ∈ (cs.dropWhile isJsWS).reverse.dropWhile isJsWS :=
    mem_dropWhile_of_not isJsWS _ c h2 hw
  exact List.ne_nil_of_mem (List.mem_reverse.mpr h3)

lemma trimL_subset (cs : List Char) (c : Char) (hc : c ∈ trimL cs) : c ∈ cs := by
  unfold trimL at hc
  rw [List.mem_reverse] at hc
  have h1 := mem_of_mem_dropWhile isJsWS _ c hc
  rw [List.mem_reverse] at h1
  exact mem_of_mem_dropWhile isJsWS _ c h1

lemma length_trimL_le (cs : List Char) : (trimL cs).length ≤ cs.length := by
  unfold trimL
  rw [List.length_reverse]
  calc ((cs.dropWhile isJsWS).reverse.dropWhile isJsWS).length
      ≤ (cs.dropWhile isJsWS).reverse.length :=
        (List.dropWhile_suffix isJsWS).sublist.length_le
    _ = (cs.dropWhile isJsWS).length := List.length_reverse _
    _ ≤ cs.length := (List.dropWhile_suffix isJsWS).sublist.length_le

lemma str_mk_ne_empty_iff (l : List Char) : (⟨l⟩ : String) ≠ "" ↔ l ≠ [] := by
  constructor
  · intro h hl
    exact h (by rw [hl])
  · intro h hs
    exact h (congrArg String.data hs)

lemma jsTrim_ne_iff (s : String) : jsTrim s ≠ "" ↔ ∃ c ∈ s.data, isJsWS c = false := by
  constructor
  · intro h
    have h1 : trimL s.data ≠ [] := (str_mk_ne_empty_iff _).mp h
    obtain ⟨c, hc, hw⟩ := exists_nonws_of_trimL_ne s.data h1
    exact ⟨c, trimL_subset s.data c hc, hw⟩
  · intro ⟨c, hc, hw⟩
    exact (str_mk_ne_empty_iff _).mpr (trimL_ne_of_mem s.data c hc hw)

lemma length_jsTrim_le (s : String) : (jsTrim s).length ≤ s.length :=
  length_trimL_le s.data

lemma jsTrim_jsTrim_ne (s : String) (h : jsTrim s ≠ "") : jsTrim (jsTrim s) ≠ "" := by
  have h1 : trimL s.data ≠ [] := (str_mk_ne_empty_iff _).mp h
  obtain ⟨c, hc, hw⟩ := exists_nonws_of_trimL_ne s.data h1
  exact (jsTrim_ne_iff _).mpr ⟨c, hc, hw⟩

lemma ceilDiv_spec (a b : Nat) (hb : 1 ≤ b) :
    a ≤ ceilDiv a b * b ∧ ceilDiv a b * b < a + b := by
  unfold ceilDiv
  obtain ⟨b', rfl⟩ : ∃ b', b = b' + 1 := ⟨b - 1, by omega⟩
  have hd : a + (b' + 1) - 1 = a + b' := by omega
  rw [hd, Nat.mul_comm]
  have h := Nat.div_add_mod (a + b') (b' + 1)
  have hr : (a + b') % (b' + 1) < b' + 1 := Nat.mod_lt _ (by omega)
  set q := (a + b') / (b' + 1) with hq
  set r := (a + b') % (b' + 1) with hrdef
  constructor
  · linarith
  · nlinarith

lemma validatePagination_fst_ge (page limit : JInput) :
    1 ≤ (validatePagination page limit).1 :=
  le_max_left _ _

lemma validatePagination_snd_ge (page limit : JInput) :
    1 ≤ (validatePagination page limit).2 :=
  le_min (by norm_num) (le_max_left _ _)

lemma validatePagination_snd_le (page limit : JInput) :
    (validatePagination page limit).2 ≤ 100 :=
  min_le_left _ _

lemma titleErrors_eq_nil_iff (t : JInput) :
    titleErrors t = [] ↔ ∃ s, t = .jstr s ∧ jsTrim s ≠ "" ∧ s.length ≤ 255 := by
  cases t with
  | jstr s =>
    show (if s = "" ∨ jsTrim s = "" then ["Title is required and must be a non-empty string"]
      else if s.length > 255 then ["Title must be 255 characters or less"] else []) = [] ↔ _
    by_cases h1 : s = "" ∨ jsTrim s = ""
    · rw [if_pos h1]
      constructor
      · intro h
        cases h
      · intro ⟨s2, hs2, hne, _⟩
        injection hs2 with hs3
        subst hs3
        rcases h1 with rfl | h1
        · exact absurd rfl hne
        · exact absurd h1 hne
    · rw [if_neg h1]
      push_neg at h1
      by_cases h2 : s.length > 255
      · rw [if_pos h2]
        constructor
        · intro h
          cases h
        · intro ⟨s2, hs2, _, hle⟩
          injection hs2 with hs3
          subst hs3
          omega
      · rw [if_neg h2]
        exact ⟨fun _ => ⟨s, rfl, h1.2, by omega⟩, fun _ => rfl⟩
  | jnum n =>
    show ["Title is required and must be a non-empty string"] = [] ↔ _
    constructor
    · intro h
      cases h
    · intro ⟨s, hs, _⟩
      cases hs
  | jnull =>
    show ["Title is required and must be a non-empty string"] = [] ↔ _
    constructor
    · intro h
      cases h
    · intro ⟨s, hs, _⟩
      cases hs

lemma bodyErrors_eq_nil_iff (b : JInput) :
    bodyErrors b = [] ↔ ∃ s, b = .jstr s ∧ jsTrim s ≠ "" ∧ s.length ≤ 10000 := by
  cases b with
  | jstr s =>
    show (if s = "" ∨ jsTrim s = "" then ["Body is required and must be a non-empty string"]
      else if s.length > 10000 then ["Body must be 10000 characters or less"] else []) = [] ↔ _
    by_cases h1 : s = "" ∨ jsTrim s = ""
    · rw [if_pos h1]
      constructor
      · intro h
        cases h
      · intro ⟨s2, hs2, hne, _⟩
        injection hs2 with hs3
        subst hs3
        rcases h1 with rfl | h1
        · exact absurd rfl hne
        · exact absurd h1 hne
    · rw [if_neg h1]
      push_neg at h1
      by_cases h2 : s.length > 10000
      · rw [if_pos h2]
        constructor
        · intro h
          cases h
        · intro ⟨s2, hs2, _, hle⟩
          injection hs2 with hs3
          subst hs3
          omega
      · rw [if_neg h2]
        exact ⟨fun _ => ⟨s, rfl, h1.2, by omega⟩, fun _ => rfl⟩
  | jnum n =>
    show ["Body is required and must be a non-empty string"] = [] ↔ _
    constructor
    · intro h
      cases h
    · intro ⟨s, hs, _⟩
      cases hs
  | jnull =>
    show ["Body is required and must be a non-empty string"] = [] ↔ _
    constructor
    · intro h
      cases h
    · intro ⟨s, hs, _⟩
      cases hs

lemma validatePostData_isValid_iff (t b : JInput) :
    (validatePostData t b).isValid = true ↔ titleErrors t = [] ∧ bodyErrors b = [] := by
  unfold validatePostData
  simp [List.isEmpty_iff, List.append_eq_nil]

lemma envelopeOK_listPostsCore (q : Except DbError ListOut) :
    envelopeOK (listPostsCore q) = true := by
  cases q <;> rfl

lemma envelopeOK_handleSingle (r : Except DbError Post) :
    envelopeOK (handleSingle r) = true := by
  cases r with
  | error e =>
    by_cases h : e.code = "PGRST116" <;> simp [handleSingle, envelopeOK, h]
  | ok p => rfl

lemma envelopeOK_getPost (db : List Post) (id : String) :
    envelopeOK (getPost db id) = true := by
  unfold getPost
  cases hv : validateId (.jstr id)
  · rfl
  · exact envelopeOK_handleSingle _

lemma envelopeOK_createPost (db : List Post) (t b u : JInput) :
    envelopeOK (createPost db t b u).1 = true := by
  unfold createPost
  cases htu : truthy u
  · rfl
  · cases hvv : (validatePostData t b).isValid
    · rfl
    · rfl

lemma envelopeOK_updatePost (db : List Post) (id : String) (t b : JInput) :
    envelopeOK (updatePost db id t b).1 = true := by
  unfold updatePost
  cases hv : validateId (.jstr id)
  · rfl
  · cases hvv : (validatePostData t b).isValid
    · rfl
    · rcases hc : castInt id with e | n
      · exact envelopeOK_handleSingle _
      · exact envelopeOK_handleSingle _

lemma envelopeOK_deletePost (db : List Post) (id : String) :
    envelopeOK (deletePost db id).1 = true := by
  unfold deletePost
  cases hv : validateId (.jstr id)
  · rfl
  · rcases hc : castInt id with e | n
    · rfl
    · rfl

lemma envelopeOK_catchAll (exc : Option String) (body : Response)
    (h : envelopeOK body = true) : envelopeOK (catchAll exc body) = true := by
  cases exc with
  | none => exact h
  | some m => rfl

/-! ### Claim theorems -/

/-- C2: `validateId` is true exactly on inputs that `parseInt` turns
into a positive integer; non-numeric strings, null, "0" and
negative-number strings are rejected, positive-integer strings are
accepted. -/
theorem validateId_spec :
    (∀ id : JInput, validateId id = true ↔ ∃ n, parseIntJ id = some n ∧ 0 < n) ∧
    (∀ (id : JInput) (n : Int), parseIntJ id = some n → n ≤ 0 → validateId id = false) ∧
    validateId (.jstr "abc") = false ∧ validateId .jnull = false ∧
    validateId (.jstr "0") = false ∧ validateId (.jstr "-12") = false ∧
    validateId (.jstr "123") = true := by
  have hiff : ∀ id : JInput, validateId id = true ↔ ∃ n, parseIntJ id = some n ∧ 0 < n := by
    intro id
    constructor
    · intro h
      unfold validateId at h
      rcases hp : parseIntJ id with _ | n
      · rw [hp] at h
        simp at h
      · refine ⟨n, rfl, ?_⟩
        rw [hp] at h
        simp at h
        exact h.2
    · intro ⟨n, hp, hn⟩
      unfold validateId
      rw [hp]
      have ht : truthy id = true := by
        cases id with
        | jstr s =>
          by_cases hs : s = ""
          · subst hs
            exact Option.noConfusion hp
          · simp [truthy, hs]
        | jnum k =>
          injection hp with hk
          subst hk
          simp [truthy]
          omega
        | jnull => exact Option.noConfusion hp
      simp [ht, hn]
  refine ⟨hiff, ?_, by decide, by decide, by decide, by decide, by decide⟩
  intro id n hp hn
  by_contra h
  rw [Bool.not_eq_false] at h
  obtain ⟨m, hm, hm2⟩ := (hiff id).mp h
  rw [hp] at hm
  injection hm with hm3
  omega

/-- Witness for C2 at concrete inputs. -/
theorem validateId_spec_witness :
    validateId (.jstr "7") = true ∧ validateId (.jstr "-3") = false :=
  ⟨(validateId_spec.1 (.jstr "7")).mpr ⟨7, by decide, by decide⟩,
   validateId_spec.2.1 (.jstr "-3") (-3) (by decide) (by decide)⟩

/-- C6: `validatePagination` is total (a Lean function never raises),
always returns a page number at least 1 and a limit in [1, 100], and
maps the two documented concrete inputs as specified. -/
theorem validatePagination_spec :
    (∀ page limit : JInput, 1 ≤ (validatePagination page limit).1 ∧
      1 ≤ (validatePagination page limit).2 ∧ (validatePagination page limit).2 ≤ 100) ∧
    validatePagination (.jstr "-1") (.jstr "200") = (1, 100) ∧
    validatePagination (.jstr "abc") (.jstr "xyz") = (1, 10) :=
  ⟨fun page limit => ⟨validatePagination_fst_ge page limit,
      validatePagination_snd_ge page limit, validatePagination_snd_le page limit⟩,
    by decide, by decide⟩

/-- C7: `validatePostData` checks title and body independently, emits
the documented message for each failure mode, `isValid` holds iff the
error list is empty, and the concrete blank-title/20000-char-body input
produces exactly the two messages. -/
theorem validatePostData_spec :
    (∀ t b : JInput, (validatePostData t b).isValid = true ↔ (validatePostData t b).errors = []) ∧
    (∀ t b : JInput, (validatePostData t b).errors = titleErrors t ++ bodyErrors b) ∧
    (∀ t b : JInput, (¬∃ s, t = JInput.jstr s ∧ jsTrim s ≠ "") →
      "Title is required and must be a non-empty string" ∈ (validatePostData t b).errors) ∧
    (∀ (b : JInput) (s : String), jsTrim s ≠ "" → 255 < s.length →
      "Title must be 255 characters or less" ∈ (validatePostData (.jstr s) b).errors) ∧
    (∀ t b : JInput, (¬∃ s, b = JInput.jstr s ∧ jsTrim s ≠ "") →
      "Body is required and must be a non-empty string" ∈ (validatePostData t b).errors) ∧
    (∀ (t : JInput) (s : String), jsTrim s ≠ "" → 10000 < s.length →
      "Body must be 10000 characters or less" ∈ (validatePostData t (.jstr s)).errors) ∧
    (validatePostData (.jstr "") (.jstr ⟨List.replicate 20000 'x'⟩)).isValid = false ∧
    (validatePostData (.jstr "") (.jstr ⟨List.replicate 20000 'x'⟩)).errors =
      ["Title is required and must be a non-empty string",
       "Body must be 10000 characters or less"] := by
  have hmemx : 'x' ∈ List.replicate 20000 'x' := List.mem_replicate.mpr ⟨by norm_num, rfl⟩
  have hne1 : (⟨List.replicate 20000 'x'⟩ : String) ≠ "" := by
    rw [str_mk_ne_empty_iff]
    intro h
    have h2 := congrArg List.length h
    rw [List.length_replicate] at h2
    exact absurd h2 (by norm_num)
  have hne2 : jsTrim ⟨List.replicate 20000 'x'⟩ ≠ "" :=
    (jsTrim_ne_iff _).mpr ⟨'x', hmemx, by decide⟩
  have hlen : (⟨List.replicate 20000 'x'⟩ : String).length > 10000 := by
    show (List.replicate 20000 'x').length > 10000
    rw [List.length_replicate]
    norm_num
  have hbig : bodyErrors (.jstr ⟨List.replicate 20000 'x'⟩) =
      ["Body must be 10000 characters or less"] := by
    show (if (⟨List.replicate 20000 'x'⟩ : String) = "" ∨ jsTrim ⟨List.replicate 20000 'x'⟩ = ""
        then ["Body is required and must be a non-empty string"]
        else if (⟨List.replicate 20000 'x'⟩ : String).length > 10000
        then ["Body must be 10000 characters or less"]
        else []) = ["Body must be 10000 characters or less"]
    rw [if_neg (by rintro (h | h); exacts [hne1 h, hne2 h]), if_pos hlen]
  refine ⟨?_, fun _ _ => rfl, ?_, ?_, ?_, ?_, ?_, ?_⟩
  · intro t b
    unfold validatePostData
    simp [List.isEmpty_iff]
  · intro t b hn
    have hne : titleErrors t = ["Title is required and must be a non-empty string"] := by
      cases t with
      | jstr s =>
        push_neg at hn
        have h0 := hn s rfl
        show (if s = "" ∨ jsTrim s = "" then ["Title is required and must be a non-empty string"]
            else if s.length > 255 then ["Title must be 255 characters or less"]
            else []) = ["Title is required and must be a non-empty string"]
        rw [if_pos (Or.inr h0)]
      | jnum n => rfl
      | jnull => rfl
    show _ ∈ titleErrors t ++ bodyErrors b
    rw [hne]
    exact List.mem_append_left _ (List.mem_cons_self _ _)
  · intro b s h1 h2
    have hne : titleErrors (.jstr s) = ["Title must be 255 characters or less"] := by
      show (if s = "" ∨ jsTrim s = "" then ["Title is required and must be a non-empty string"]
          else if s.length > 255 then ["Title must be 255 characters or less"]
          else []) = ["Title must be 255 characters or less"]
      rw [if_neg (by rintro (rfl | h); exacts [h1 rfl, h1 h]), if_pos h2]
    show _ ∈ titleErrors (.jstr s) ++ bodyErrors b
    rw [hne]
    exact List.mem_append_left _ (List.mem_cons_self _ _)
  · intro t b hn
    have hne : bodyErrors b = ["Body is required and must be a non-empty string"] := by
      cases b with
      | jstr s =>
        push_neg at hn
        have h0 := hn s rfl
        show (if s = "" ∨ jsTrim s = "" then ["Body is required and must be a non-empty string"]
            else if s.length > 10000 then ["Body must be 10000 characters or less"]
            else []) = ["Body is required and must be a non-empty string"]
        rw [if_pos (Or.inr h0)]
      | jnum n => rfl
      | jnull => rfl
    show _ ∈ titleErrors t ++ bodyErrors b
    rw [hne]
    exact List.mem_append_right _ (List.mem_cons_self _ _)
  · intro t s h1 h2
    have hne : bodyErrors (.jstr s) = ["Body must be 10000 characters or less"] := by
      show (if s = "" ∨ jsTrim s = "" then ["Body is required and must be a non-empty string"]
          else if s.length > 10000 then ["Body must be 10000 characters or less"]
          else []) = ["Body must be 10000 characters or less"]
      rw [if_neg (by rintro (rfl | h); exacts [h1 rfl, h1 h]), if_pos h2]
    show _ ∈ titleErrors t ++ bodyErrors (.jstr s)
    rw [hne]
    exact List.mem_append_right _ (List.mem_cons_self _ _)
  · show (titleErrors (.jstr "") ++ bodyErrors (.jstr ⟨List.replicate 20000 'x'⟩)).isEmpty = false
    rw [hbig]
    rfl
  · show titleErrors (.jstr "") ++ bodyErrors (.jstr ⟨List.replicate 20000 'x'⟩) = _
    rw [hbig]
    rfl

/-- Witness for C7 at concrete inputs discharging the hypotheses. -/
theorem validatePostData_spec_witness :
    "Title is required and must be a non-empty string" ∈
      (validatePostData .jnull (.jstr "hi")).errors ∧
    "Body must be 10000 characters or less" ∈
      (validatePostData (.jstr "ok") (.jstr ⟨List.replicate 10001 'y'⟩)).errors :=
  ⟨validatePostData_spec.2.2.1 .jnull (.jstr "hi") (by rintro ⟨s, hs, _⟩; cases hs),
   validatePostData_spec.2.2.2.2.2.1 (.jstr "ok") ⟨List.replicate 10001 'y'⟩
     ((jsTrim_ne_iff _).mpr
       ⟨'y', List.mem_replicate.mpr ⟨by norm_num, rfl⟩, by decide⟩)
     (by show 10000 < (List.replicate 10001 'y').length
         rw [List.length_replicate]
         norm_num)⟩

/-- C5: with a valid id, delete answers 200 with the success message on
any database state, and a second delete of the same id again answers
200; only a database error during the delete yields 400. -/
theorem deletePost_spec :
    (∀ (db : List Post) (id : String) (n : Int),
      validateId (.jstr id) = true → castInt id = Except.ok n →
      (deletePost db id).1 = ⟨200, true, some (.msg "Post deleted successfully"), none⟩ ∧
      (deletePost (deletePost db id).2 id).1 =
        ⟨200, true, some (.msg "Post deleted successfully"), none⟩) ∧
    (∀ (db : List Post) (id : String) (e : DbError),
      validateId (.jstr id) = true → castInt id = Except.error e →
      (deletePost db id).1 = ⟨400, false, none, some e.message⟩) := by
  constructor
  · intro db id n hv hc
    constructor
    · simp [deletePost, hv, hc]
    · simp [deletePost, hv, hc]
  · intro db id e hv hc
    simp [deletePost, hv, hc]

/-- Witness for C5 at a concrete database and id. -/
theorem deletePost_spec_witness :
    (deletePost [⟨3, "t", "b", .jnum 1⟩] "3").1 =
      ⟨200, true, some (.msg "Post deleted successfully"), none⟩ ∧
    (deletePost (deletePost [⟨3, "t", "b", .jnum 1⟩] "3").2 "3").1 =
      ⟨200, true, some (.msg "Post deleted successfully"), none⟩ :=
  deletePost_spec.1 [⟨3, "t", "b", .jnum 1⟩] "3" 3 (by decide) rfl

/-- C9: every route wraps its handler in the exception boundary: any
exception is answered with 500 and the fixed generic message
(independent of the exception text), and without an exception the
handler response passes through unchanged. -/
theorem exception_boundary_spec : ∀ (db : List Post) (page limit t b u : JInput)
    (id search m : String),
    listRoute db page limit search (some m) = ⟨500, false, none, some "Internal server error"⟩ ∧
    getRoute db id (some m) = ⟨500, false, none, some "Internal server error"⟩ ∧
    createRoute db t b u (some m) = ⟨500, false, none, some "Internal server error"⟩ ∧
    updateRoute db id t b (some m) = ⟨500, false, none, some "Internal server error"⟩ ∧
    deleteRoute db id (some m) = ⟨500, false, none, some "Internal server error"⟩ ∧
    listRoute db page limit search none = listPosts db page limit search ∧
    getRoute db id none = getPost db id ∧
    createRoute db t b u none = (createPost db t b u).1 ∧
    updateRoute db id t b none = (updatePost db id t b).1 ∧
    deleteRoute db id none = (deletePost db id).1 :=
  fun _ _ _ _ _ _ _ _ _ => ⟨rfl, rfl, rfl, rfl, rfl, rfl, rfl, rfl, rfl, rfl⟩

/-- C10: every response envelope the posts routes, the query-outcome
branches, the middleware, and the response helpers can produce satisfies
the complementarity invariant: success implies null error, failure
implies null data. -/
theorem envelope_complementarity : ∀ (db : List Post) (page limit t b u : JInput)
    (id search method path e : String) (exc : Option String)
    (q : Except DbError ListOut) (r : Except DbError Post) (d : Nat) (msg : Option String),
    envelopeOK (listPostsCore q) = true ∧
    envelopeOK (handleSingle r) = true ∧
    envelopeOK (listRoute db page limit search exc) = true ∧
    envelopeOK (getRoute db id exc) = true ∧
    envelopeOK (createRoute db t b u exc) = true ∧
    envelopeOK (updateRoute db id t b exc) = true ∧
    envelopeOK (deleteRoute db id exc) = true ∧
    envelopeOK errorHandler = true ∧
    envelopeOK (notFoundHandler method path) = true ∧
    envelopeOKe (createSuccessResponse d msg) = true ∧
    envelopeOKe (@createErrorResponse Nat e) = true :=
  fun db _page _limit t b u id _search _method _path _e exc q r _d _msg =>
    ⟨envelopeOK_listPostsCore q, envelopeOK_handleSingle r,
     envelopeOK_catchAll exc _ (envelopeOK_listPostsCore _),
     envelopeOK_catchAll exc _ (envelopeOK_getPost db id),
     envelopeOK_catchAll exc _ (envelopeOK_createPost db t b u),
     envelopeOK_catchAll exc _ (envelopeOK_updatePost db id t b),
     envelopeOK_catchAll exc _ (envelopeOK_deletePost db id),
     rfl, rfl, rfl, rfl⟩

/-- The data-model invariant on a persisted post: non-empty trimmed
title of at most 255 characters, non-empty trimmed body of at most
10000 characters, non-null user_id. -/
def validPost (p : Post) : Prop :=
  jsTrim p.title ≠ "" ∧ p.title.length ≤ 255 ∧ jsTrim p.body ≠ "" ∧
  p.body.length ≤ 10000 ∧ p.user_id ≠ .jnull

instance (p : Post) : Decidable (validPost p) := by
  unfold validPost
  infer_instance

lemma sanitized_valid (t b : JInput) (hv : (validatePostData t b).isValid = true) :
    jsTrim (sanitizeString t) ≠ "" ∧ (sanitizeString t).length ≤ 255 ∧
    jsTrim (sanitizeString b) ≠ "" ∧ (sanitizeString b).length ≤ 10000 := by
  obtain ⟨ht, hb⟩ := (validatePostData_isValid_iff t b).mp hv
  obtain ⟨s1, rfl, hs1, hl1⟩ := (titleErrors_eq_nil_iff t).mp ht
  obtain ⟨s2, rfl, hs2, hl2⟩ := (bodyErrors_eq_nil_iff b).mp hb
  exact ⟨jsTrim_jsTrim_ne s1 hs1, le_trans (length_jsTrim_le s1) hl1,
    jsTrim_jsTrim_ne s2 hs2, le_trans (length_jsTrim_le s2) hl2⟩

/-- C3: the persisted-post invariant (non-empty trimmed bounded title
and body, non-null user_id) is established by create and preserved by
update, for every input payload. -/
theorem persisted_invariant (db : List Post) (t b u : JInput) (idstr : String)
    (h : ∀ p ∈ db, validPost p) :
    (∀ p ∈ (createPost db t b u).2, validPost p) ∧
    (∀ p ∈ (updatePost db idstr t b).2, validPost p) := by
  constructor
  · unfold createPost
    cases htu : truthy u
    · exact h
    · cases hvv : (validatePostData t b).isValid
      · exact h
      · intro p hp
        rcases List.mem_append.mp hp with hmem | hmem
        · exact h p hmem
        · have hp2 := List.mem_singleton.mp hmem
          subst hp2
          obtain ⟨h1, h2, h3, h4⟩ := sanitized_valid t b hvv
          refine ⟨h1, h2, h3, h4, ?_⟩
          intro hnull
          have hu : u = JInput.jnull := hnull
          rw [hu] at htu
          exact Bool.noConfusion htu
  · unfold updatePost
    cases hv : validateId (.jstr idstr)
    · exact h
    · cases hvv : (validatePostData t b).isValid
      · exact h
      · rcases hc : castInt idstr with e | n
        · exact h
        · intro p hp
          rcases List.mem_map.mp hp with ⟨q, hq, rfl⟩
          obtain ⟨h1, h2, h3, h4⟩ := sanitized_valid t b hvv
          obtain ⟨q1, q2, q3, q4, q5⟩ := h q hq
          by_cases hqid : q.id = n
          · rw [if_pos hqid]
            exact ⟨h1, h2, h3, h4, q5⟩
          · rw [if_neg hqid]
            exact ⟨q1, q2, q3, q4, q5⟩

/-- Witness for C3: the invariant holds for the row created by a
concrete create call on a concrete valid database. -/
theorem persisted_invariant_witness : validPost ⟨2, "x", "y", .jnum 7⟩ := by
  have h := (persisted_invariant [⟨1, "t", "b", .jnum 1⟩] (.jstr "x") (.jstr "y")
    (.jnum 7) "1" (by decide)).1
  exact h ⟨2, "x", "y", .jnum 7⟩ (by decide)

/-- Default row used with `List.getD`. -/
def d0 : Post := ⟨0, "", "", .jnull⟩

lemma getD_applyUpdate (n : Int) (x y : String) (db : List Post) (i : Nat)
    (hi : i < db.length) :
    (applyUpdate n x y db).getD i d0 =
      (if (db.getD i d0).id = n then { db.getD i d0 with title := x, body := y }
       else db.getD i d0) := by
  have hl : (applyUpdate n x y db).length = db.length := List.length_map _ _
  have h1 : i < (applyUpdate n x y db).length := by omega
  rw [List.getD_eq_getElem _ d0 h1, List.getD_eq_getElem _ d0 hi]
  simp only [applyUpdate, List.getElem_map]

/-- C8: update changes at most the title and body of rows with the
given id: the database keeps its length, every row keeps its id and
user_id, rows with a different id are untouched, and the new state is
either unchanged or exactly the sanitized title/body rewrite of the
matching rows. -/
theorem updatePost_frame (db : List Post) (idstr : String) (t b : JInput) :
    (updatePost db idstr t b).2.length = db.length ∧
    (∀ i, i < db.length →
      ((updatePost db idstr t b).2.getD i d0).id = (db.getD i d0).id ∧
      ((updatePost db idstr t b).2.getD i d0).user_id = (db.getD i d0).user_id) ∧
    (∀ m, castInt idstr = Except.ok m → ∀ i, i < db.length → (db.getD i d0).id ≠ m →
      (updatePost db idstr t b).2.getD i d0 = db.getD i d0) ∧
    ((updatePost db idstr t b).2 = db ∨
      ∃ n, castInt idstr = Except.ok n ∧
        (updatePost db idstr t b).2 =
          applyUpdate n (sanitizeString t) (sanitizeString b) db) := by
  have hshape : (updatePost db idstr t b).2 = db ∨
      ∃ n, castInt idstr = Except.ok n ∧ (updatePost db idstr t b).2 =
        applyUpdate n (sanitizeString t) (sanitizeString b) db := by
    unfold updatePost
    cases hv : validateId (.jstr idstr)
    · exact Or.inl rfl
    · cases hvv : (validatePostData t b).isValid
      · exact Or.inl rfl
      · rcases hc : castInt idstr with e | n
        · exact Or.inl rfl
        · exact Or.inr ⟨n, rfl, rfl⟩
  rcases hshape with heq | ⟨n, hc, heq⟩
  · exact ⟨by rw [heq], fun i _ => ⟨by rw [heq], by rw [heq]⟩,
      fun m _ i _ _ => by rw [heq], Or.inl heq⟩
  · refine ⟨?_, ?_, ?_, Or.inr ⟨n, hc, heq⟩⟩
    · rw [heq]
      exact List.length_map _ _
    · intro i hi
      rw [heq, getD_applyUpdate n _ _ db i hi]
      constructor
      · by_cases hid : (db.getD i d0).id = n
        · rw [if_pos hid]
        · rw [if_neg hid]
      · by_cases hid : (db.getD i d0).id = n
        · rw [if_pos hid]
        · rw [if_neg hid]
    · intro m hm i hi hne
      have hmn : m = n := by
        rw [hc] at hm
        injection hm with h2
        exact h2.symm
      subst hmn
      rw [heq, getD_applyUpdate m _ _ db i hi, if_neg hne]

/-- Witness for C8: a concrete update leaves the non-matching row
untouched. -/
theorem updatePost_frame_witness :
    (updatePost [⟨1, "a", "b", .jnum 1⟩, ⟨2, "c", "d", .jnum 2⟩] "1"
      (.jstr "x") (.jstr "y")).2.getD 1 d0 =
      ([⟨1, "a", "b", .jnum 1⟩, ⟨2, "c", "d", .jnum 2⟩] : List Post).getD 1 d0 :=
  (updatePost_frame [⟨1, "a", "b", .jnum 1⟩, ⟨2, "c", "d", .jnum 2⟩] "1"
    (.jstr "x") (.jstr "y")).2.2.1 1 rfl 1 (by norm_num) (by decide)

lemma filter_map_comm {α β : Type} (l : List α) (f : α → β) (q : β → Bool) :
    (l.map f).filter q = (l.filter (fun x => q (f x))).map f := by
  induction l with
  | nil => rfl
  | cons a t ih =>
    simp only [List.map_cons, List.filter_cons]
    by_cases h : q (f a) = true
    · simp [h, ih]
    · simp [h, ih]

lemma rowsById_applyUpdate (n : Int) (x y : String) (db : List Post) :
    rowsById (applyUpdate n x y db) n =
      (rowsById db n).map (fun p => { p with title := x, body := y }) := by
  unfold rowsById applyUpdate
  rw [filter_map_comm]
  have hpred : (fun p : Post =>
      decide ((if p.id = n then { p with title := x, body := y } else p).id = n)) =
      (fun p : Post => decide (p.id = n)) := by
    funext p
    by_cases hp : p.id = n
    · rw [if_pos hp]
    · rw [if_neg hp]
  rw [hpred]
  apply List.map_congr_left
  intro p hp
  rw [if_pos (of_decide_eq_true (List.mem_filter.mp hp).2)]

/-- C4 counterexample: for Update the claim fails as stated: with the
valid id "1" and an empty database (zero rows match the id), a payload
failing validation is answered 400, not 404. -/
theorem get_update_status_counterexample :
    validateId (.jstr "1") = true ∧
    castInt "1" = Except.ok 1 ∧
    rowsById ([] : List Post) 1 = [] ∧
    (updatePost [] "1" .jnull .jnull).1.status = 400 ∧
    (updatePost [] "1" .jnull .jnull).1 ≠ ⟨404, false, none, some "Post not found"⟩ :=
  ⟨by decide, rfl, rfl, by decide, by decide⟩

/-- C4 (amended): for Get-by-id: invalid id gives 400, zero matching
rows give 404 "Post not found", any other database error gives 400 with
its message, success gives 200 with the post.  For Update the same
holds, except that a payload failing `validatePostData` is answered 400
before the database is consulted. -/
theorem get_update_status_spec :
    (∀ (db : List Post) (id : String), validateId (.jstr id) = false →
      getPost db id = ⟨400, false, none, some "Invalid post ID"⟩) ∧
    (∀ (db : List Post) (id : String) (n : Int), validateId (.jstr id) = true →
      castInt id = Except.ok n → rowsById db n = [] →
      getPost db id = ⟨404, false, none, some "Post not found"⟩) ∧
    (∀ e : DbError, e.code ≠ "PGRST116" →
      handleSingle (Except.error e) = ⟨400, false, none, some e.message⟩) ∧
    (∀ p : Post, handleSingle (Except.ok p) = ⟨200, true, some (.post p), none⟩) ∧
    (∀ (db : List Post) (id : String) (n : Int) (p : Post), validateId (.jstr id) = true →
      castInt id = Except.ok n → rowsById db n = [p] →
      getPost db id = ⟨200, true, some (.post p), none⟩) ∧
    (∀ (db : List Post) (id : String) (t b : JInput), validateId (.jstr id) = false →
      (updatePost db id t b).1 = ⟨400, false, none, some "Invalid post ID"⟩) ∧
    (∀ (db : List Post) (id : String) (t b : JInput), validateId (.jstr id) = true →
      (validatePostData t b).isValid = false →
      (updatePost db id t b).1 =
        ⟨400, false, none, some (String.intercalate ", " (validatePostData t b).errors)⟩) ∧
    (∀ (db : List Post) (id : String) (t b : JInput) (n : Int),
      validateId (.jstr id) = true → (validatePostData t b).isValid = true →
      castInt id = Except.ok n → rowsById db n = [] →
      (updatePost db id t b).1 = ⟨404, false, none, some "Post not found"⟩) ∧
    (∀ (db : List Post) (id : String) (t b : JInput) (n : Int) (p : Post),
      validateId (.jstr id) = true → (validatePostData t b).isValid = true →
      castInt id = Except.ok n → rowsById db n = [p] →
      (updatePost db id t b).1 =
        ⟨200, true,
          some (.post { p with title := sanitizeString t, body := sanitizeString b }),
          none⟩) := by
  refine ⟨?_, ?_, ?_, ?_, ?_, ?_, ?_, ?_, ?_⟩
  · intro db id hv
    unfold getPost
    rw [hv]
    rfl
  · intro db id n hv hc hrows
    unfold getPost getPostQuery
    rw [hv, hc]
    show handleSingle (singleResult (rowsById db n)) = _
    rw [hrows]
    rfl
  · intro e he
    show (if e.code = "PGRST116" then (⟨404, false, none, some "Post not found"⟩ : Response)
      else ⟨400, false, none, some e.message⟩) = _
    rw [if_neg he]
  · intro p
    rfl
  · intro db id n p hv hc hrows
    unfold getPost getPostQuery
    rw [hv, hc]
    show handleSingle (singleResult (rowsById db n)) = _
    rw [hrows]
    rfl
  · intro db id t b hv
    unfold updatePost
    rw [hv]
    rfl
  · intro db id t b hv hvv
    unfold updatePost
    rw [hv, hvv]
    rfl
  · intro db id t b n hv hvv hc hrows
    unfold updatePost
    rw [hv, hvv, hc]
    show handleSingle (singleResult (rowsById
      (applyUpdate n (sanitizeString t) (sanitizeString b) db) n)) = _
    rw [rowsById_applyUpdate, hrows]
    rfl
  · intro db id t b n p hv hvv hc hrows
    unfold updatePost
    rw [hv, hvv, hc]
    show handleSingle (singleResult (rowsById
      (applyUpdate n (sanitizeString t) (sanitizeString b) db) n)) = _
    rw [rowsById_applyUpdate, hrows]
    rfl

/-- Witness for C4 at concrete inputs: not-found on the empty database
and a successful concrete update. -/
theorem get_update_status_spec_witness :
    getPost [] "1" = ⟨404, false, none, some "Post not found"⟩ ∧
    (updatePost [⟨1, "a", "b", .jnum 1⟩] "1" (.jstr "x") (.jstr "y")).1 =
      ⟨200, true, some (.post ⟨1, "x", "y", .jnum 1⟩), none⟩ :=
  ⟨get_update_status_spec.2.1 [] "1" 1 (by decide) rfl rfl,
   get_update_status_spec.2.2.2.2.2.2.2.2 [⟨1, "a", "b", .jnum 1⟩] "1"
     (.jstr "x") (.jstr "y") 1 ⟨1, "a", "b", .jnum 1⟩ (by decide) (by decide) rfl rfl⟩

/-- A concrete five-row database used by the documented pagination
example. -/
def fivePosts : List Post :=
  [⟨1, "t1", "b1", .jnum 1⟩, ⟨2, "t2", "b2", .jnum 1⟩, ⟨3, "t3", "b3", .jnum 1⟩,
   ⟨4, "t4", "b4", .jnum 1⟩, ⟨5, "t5", "b5", .jnum 1⟩]

/-- C1: the list operation returns the `[offset, offset+limit)` window
of the matching rows ordered by id descending; with a non-empty trimmed
search every returned row is a database row matching the search; the
result is sorted by id descending and has at most `limitNum` rows; the
total count is the number of matching rows and `totalPages` is its
ceiling-quotient by `limitNum`; `hasNextPage`/`hasPrevPage` are the
specified comparisons; and page=1, limit=2 over five posts returns
exactly 2 posts with totalPages 3, hasNextPage true, hasPrevPage
false. -/
theorem listPosts_spec (db : List Post) (page limit : JInput) (search : String) :
    (listResult db page limit search).posts =
      ((sortByIdDesc (searchFilter search db)).drop
        (((validatePagination page limit).1 - 1) * (validatePagination page limit).2).toNat).take
        (validatePagination page limit).2.toNat ∧
    (jsTrim search ≠ "" → ∀ p ∈ (listResult db page limit search).posts,
      p ∈ db ∧ matchesSearch search p = true) ∧
    (listResult db page limit search).posts.Pairwise idDesc ∧
    (listResult db page limit search).posts.length ≤ (validatePagination page limit).2.toNat ∧
    (jsTrim search ≠ "" → (listResult db page limit search).pagination.totalItems =
      db.countP (fun p => matchesSearch search p)) ∧
    (jsTrim search = "" → (listResult db page limit search).pagination.totalItems = db.length) ∧
    (listResult db page limit search).pagination.totalItems ≤
      (listResult db page limit search).pagination.totalPages *
        (validatePagination page limit).2.toNat ∧
    (listResult db page limit search).pagination.totalPages *
        (validatePagination page limit).2.toNat <
      (listResult db page limit search).pagination.totalItems +
        (validatePagination page limit).2.toNat ∧
    (listResult db page limit search).pagination.hasNextPage =
      decide ((validatePagination page limit).1 <
        ((listResult db page limit search).pagination.totalPages : Int)) ∧
    (listResult db page limit search).pagination.hasPrevPage =
      decide (1 < (validatePagination page limit).1) ∧
    (listResult fivePosts (.jstr "1") (.jstr "2") "").posts.length = 2 ∧
    (listResult fivePosts (.jstr "1") (.jstr "2") "").pagination =
      ⟨1, 3, 5, 2, true, false⟩ := by
  have hLn : 1 ≤ (validatePagination page limit).2.toNat := by
    have h := validatePagination_snd_ge page limit
    omega
  have hceil := ceilDiv_spec (searchFilter search db).length
    (validatePagination page limit).2.toNat hLn
  refine ⟨rfl, ?_, ?_, ?_, ?_, ?_, hceil.1, hceil.2, rfl, rfl, by decide, by decide⟩
  · intro hne p hp
    have hp2 : p ∈ sortByIdDesc (searchFilter search db) :=
      List.drop_subset _ _ (List.take_subset _ _ hp)
    have hp3 : p ∈ searchFilter search db :=
      ((List.perm_insertionSort idDesc (searchFilter search db)).mem_iff).mp hp2
    unfold searchFilter at hp3
    rw [if_pos hne] at hp3
    exact ⟨(List.mem_filter.mp hp3).1, (List.mem_filter.mp hp3).2⟩
  · have hs : (sortByIdDesc (searchFilter search db)).Pairwise idDesc :=
      List.sorted_insertionSort idDesc (searchFilter search db)
    exact List.Pairwise.sublist
      ((List.take_sublist _ _).trans (List.drop_sublist _ _)) hs
  · exact List.length_take_le _ _
  · intro hne
    show (searchFilter search db).length = _
    unfold searchFilter
    rw [if_pos hne]
    exact (List.countP_eq_length_filter _ _).symm
  · intro heq
    show (searchFilter search db).length = _
    unfold searchFilter
    rw [if_neg (fun hne => hne heq)]

/-- Witness for C1 at a concrete search: the returned row is a database
row matching the search term case-insensitively. -/
theorem listPosts_spec_witness :
    (⟨3, "t3", "b3", .jnum 1⟩ : Post) ∈ fivePosts ∧
    matchesSearch "T3" ⟨3, "t3", "b3", .jnum 1⟩ = true :=
  (listPosts_spec fivePosts (.jstr "1") (.jstr "10") "T3").2.1 (by decide)
    ⟨3, "t3", "b3", .jnum 1⟩ (by decide)
